import Mathlib

/-!
# The JNI bridge `nl_kb_magicfile_MagicFile.cc`

A shallow embedding of `src/csource/nl_kb_magicfile_MagicFile.cc`: the helpers
`initMagic`, `checkFile`, `checkStream`, `castBytes` and the six exported entry points.

* libmagic (`<magic.h>`) is an external collaborator.  It is taken as a parameter
  `LibMagic σ`: five functions over an arbitrary library state `σ` (which also stands for
  the file system and the signature database) and the three flag constants.
* The C heap, the two function-local `static char ret[1024]` buffers, the log of libmagic
  calls and the set of open detector handles are explicit fields of `World`.
* Undefined behaviour of the C code (copying from a null pointer, writing past the end of
  `ret`, touching memory that is not live) is a `Fault`; the world in which the fault
  happened is kept, so that what had been done before it can be observed.
-/

namespace MagicFile

/-! ## C strings -/

/-- The NUL character that terminates a C string. -/
def NUL : Char := Char.ofNat 0

/-- The C string stored at the start of a run of chars: the chars before the first NUL. -/
def cstr (mem : List Char) : List Char :=
  mem.takeWhile (fun c => c != NUL)

/-- Size of each `static char ret[1024]`. -/
def RET_SIZE : Nat := 1024

/-! ## The library interface -/

/-- The libmagic interface of `<magic.h>`, which this repository only links against.
A `magic_t` is a `Nat`, `0` being the null pointer.  Each function maps the library state
before the call to its return value and the library state after it.
`magic_file` receives the path, `magic_buffer` the `len` bytes found at the pointer it
was given. -/
structure LibMagic (σ : Type) where
  MAGIC_NONE : Int
  MAGIC_MIME_TYPE : Int
  MAGIC_MIME_ENCODING : Int
  magic_open : Int → σ → Nat × σ
  magic_load : Nat → Option String → σ → Int × σ
  magic_file : Nat → String → σ → Option (List Char) × σ
  magic_buffer : Nat → List Nat → σ → Option (List Char) × σ
  magic_close : Nat → σ → σ

/-- One call into libmagic, with its arguments (for `magic_open` also the handle it
returned; for `magic_buffer` the pointer, the length and the bytes read there). -/
inductive MagicCall where
  | magic_open (flags : Int) (handle : Nat)
  | magic_load (handle : Nat) (db : Option String)
  | magic_file (handle : Nat) (path : String)
  | magic_buffer (handle : Nat) (ptr : Nat) (len : Nat) (seen : List Nat)
  | magic_close (handle : Nat)
  deriving DecidableEq, Repr

/-- One call of the C allocator. -/
inductive MemEvent where
  | malloc (size : Nat) (ptr : Nat)
  | free (ptr : Nat)
  deriving DecidableEq, Repr

deriving instance DecidableEq for Except

/-- Undefined behaviour reached by the C code (`arrayIndex`: a region outside the array
asked of `GetByteArrayRegion`). -/
inductive Fault where
  | nullDeref
  | bufferOverflow
  | invalidRead
  | invalidWrite
  | invalidFree
  | arrayIndex
  deriving DecidableEq, Repr

/-! ## The heap -/

/-- A heap block: its bytes, `none` for a byte that was never written. -/
abbrev Block := List (Option Nat)

/-- The live blocks of the C heap, by address. -/
abbrev Heap := List (Nat × Block)

/-- The live block at address `p`, if any. -/
def heapFind : Heap → Nat → Option Block
  | [], _ => none
  | (a, b) :: t, p => if a = p then some b else heapFind t p

/-- Replace the contents of the live block at address `p`. -/
def heapStore : Heap → Nat → Block → Heap
  | [], _, _ => []
  | (a, b) :: t, p, blk => if a = p then (a, blk) :: t else (a, b) :: heapStore t p blk

/-- Drop the live block at address `p`. -/
def heapRemove : Heap → Nat → Heap
  | [], _ => []
  | (a, b) :: t, p => if a = p then t else (a, b) :: heapRemove t p

/-- The values of a run of bytes, provided every one of them was written. -/
def initBytes : Block → Option (List Nat)
  | [] => some []
  | none :: _ => none
  | some v :: t => (initBytes t).map (fun r => v :: r)

/-- The `len` bytes at address `p`, provided they lie in a live block and were written. -/
def readBytes (h : Heap) (p len : Nat) : Option (List Nat) :=
  match heapFind h p with
  | none => none
  | some blk => if len ≤ blk.length then initBytes (blk.take len) else none

/-! ## The world and the program monad -/

/-- Everything a call can read or change. -/
structure World (σ : Type) where
  /-- State of libmagic (and of what it reads: files, database). -/
  lib : σ
  /-- The libmagic calls made so far, oldest first. -/
  trace : List MagicCall
  /-- The detector handles that are open. -/
  handles : List Nat
  /-- The live heap blocks. -/
  heap : Heap
  /-- The last address handed out by `malloc`. -/
  brk : Nat
  /-- The allocator calls made so far, oldest first. -/
  memlog : List MemEvent
  /-- The `static char ret[1024]` of `checkFile`. -/
  retFile : List Char
  /-- The `static char ret[1024]` of `checkStream`. -/
  retStream : List Char
  deriving DecidableEq, Repr

/-- A C computation: from a world to its result (or the fault it ran into) and the world
it leaves. -/
def Prog (σ : Type) (α : Type) : Type := World σ → Except Fault α × World σ

/-- Return a value without touching the world. -/
def Prog.pure {σ α : Type} (a : α) : Prog σ α := fun w => (Except.ok a, w)

/-- Sequencing: a fault stops the computation where it happened. -/
def Prog.bind {σ α β : Type} (m : Prog σ α) (f : α → Prog σ β) : Prog σ β := fun w =>
  match (m w).1 with
  | Except.ok a => f a (m w).2
  | Except.error e => (Except.error e, (m w).2)

instance (σ : Type) : Monad (Prog σ) where
  pure := Prog.pure
  bind := Prog.bind

/-! ## Primitives: libmagic, libc, JNI -/

/-- Call `magic_open(flags)`: a non-null handle joins the open handles. -/
def magic_open {σ : Type} (L : LibMagic σ) (flags : Int) : Prog σ Nat := fun w =>
  (Except.ok (L.magic_open flags w.lib).1,
    { w with
      lib := (L.magic_open flags w.lib).2
      trace := w.trace ++ [MagicCall.magic_open flags (L.magic_open flags w.lib).1]
      handles := if (L.magic_open flags w.lib).1 = 0 then w.handles
                 else (L.magic_open flags w.lib).1 :: w.handles })

/-- Call `magic_load(checker, db)`; its status is the result. -/
def magic_load {σ : Type} (L : LibMagic σ) (checker : Nat) (db : Option String) :
    Prog σ Int := fun w =>
  (Except.ok (L.magic_load checker db w.lib).1,
    { w with
      lib := (L.magic_load checker db w.lib).2
      trace := w.trace ++ [MagicCall.magic_load checker db] })

/-- Call `magic_file(checker, path)`; the result is the string pointer, `none` for null. -/
def magic_file {σ : Type} (L : LibMagic σ) (checker : Nat) (path : String) :
    Prog σ (Option (List Char)) := fun w =>
  (Except.ok (L.magic_file checker path w.lib).1,
    { w with
      lib := (L.magic_file checker path w.lib).2
      trace := w.trace ++ [MagicCall.magic_file checker path] })

/-- Call `magic_buffer(checker, bytes, len)`: the library reads `len` bytes at `bytes`. -/
def magic_buffer {σ : Type} (L : LibMagic σ) (checker : Nat) (bytes : Nat) (len : Nat) :
    Prog σ (Option (List Char)) := fun w =>
  match readBytes w.heap bytes len with
  | none => (Except.error Fault.invalidRead, w)
  | some seen =>
    (Except.ok (L.magic_buffer checker seen w.lib).1,
      { w with
        lib := (L.magic_buffer checker seen w.lib).2
        trace := w.trace ++ [MagicCall.magic_buffer checker bytes len seen] })

/-- Call `magic_close(checker)`: a non-null handle leaves the open handles. -/
def magic_close {σ : Type} (L : LibMagic σ) (checker : Nat) : Prog σ Unit := fun w =>
  (Except.ok (),
    { w with
      lib := L.magic_close checker w.lib
      trace := w.trace ++ [MagicCall.magic_close checker]
      handles := if checker = 0 then w.handles else w.handles.erase checker })

/-- The libc `strcpy(dst, src)` into an array of `cap` chars: the chars of the C string at
`src` and a NUL overwrite the start of `dst`, the rest of `dst` stays.  A null `src` and a
string that does not fit are undefined behaviour. -/
def strcpy (cap : Nat) (dst : List Char) (src : Option (List Char)) :
    Except Fault (List Char) :=
  match src with
  | none => Except.error Fault.nullDeref
  | some m =>
    if (cstr m).length + 1 ≤ cap then
      Except.ok (cstr m ++ NUL :: dst.drop ((cstr m).length + 1))
    else Except.error Fault.bufferOverflow

/-- The statement `strcpy(ret, src)` of `checkFile`. -/
def strcpy_retFile {σ : Type} (src : Option (List Char)) : Prog σ Unit := fun w =>
  match strcpy RET_SIZE w.retFile src with
  | Except.ok r => (Except.ok (), { w with retFile := r })
  | Except.error e => (Except.error e, w)

/-- The statement `strcpy(ret, src)` of `checkStream`. -/
def strcpy_retStream {σ : Type} (src : Option (List Char)) : Prog σ Unit := fun w =>
  match strcpy RET_SIZE w.retStream src with
  | Except.ok r => (Except.ok (), { w with retStream := r })
  | Except.error e => (Except.error e, w)

/-- The libc `malloc(size)`, idealised: it always succeeds and hands out a fresh non-null
address; the bytes of the new block are unwritten. -/
def malloc {σ : Type} (size : Nat) : Prog σ Nat := fun w =>
  (Except.ok (w.brk + 1),
    { w with
      heap := (w.brk + 1, List.replicate size none) :: w.heap
      brk := w.brk + 1
      memlog := w.memlog ++ [MemEvent.malloc size (w.brk + 1)] })

/-- The libc `free(p)`: a live block is released, `free(NULL)` does nothing, anything else
is undefined behaviour. -/
def free {σ : Type} (p : Nat) : Prog σ Unit := fun w =>
  match heapFind w.heap p with
  | some _ =>
    (Except.ok (),
      { w with heap := heapRemove w.heap p, memlog := w.memlog ++ [MemEvent.free p] })
  | none =>
    if p = 0 then (Except.ok (), { w with memlog := w.memlog ++ [MemEvent.free p] })
    else (Except.error Fault.invalidFree, w)

/-- Wrap an integer to the 32-bit signed range of `int` and `jint`. -/
def wrap32 (i : Int) : Int := (i + 2 ^ 31) % 2 ^ 32 - 2 ^ 31

/-- Conversion of an `int` to the 64-bit `size_t`. -/
def toSizeT (i : Int) : Nat := (i % 2 ^ 64).toNat

/-- A Java `byte[]` a virtual machine can hold: its length is a non-negative `jint`, and
the array-size limit of the VM keeps it below `Integer.MAX_VALUE`, so `length + 1` is a
`jint` as well. -/
structure JByteArray where
  data : List Nat
  fits : data.length + 1 < 2 ^ 31

/-- JNI `GetArrayLength`. -/
def GetArrayLength (a : JByteArray) : Int := (a.data.length : Int)

/-- JNI `GetByteArrayRegion(array, start, len, buf)`: copy `len` elements from index
`start` to the memory at `buf`. -/
def GetByteArrayRegion {σ : Type} (a : JByteArray) (start len : Int) (buf : Nat) :
    Prog σ Unit := fun w =>
  if start < 0 ∨ len < 0 ∨ (a.data.length : Int) < start + len then
    (Except.error Fault.arrayIndex, w)
  else
    match heapFind w.heap buf with
    | none => (Except.error Fault.invalidWrite, w)
    | some blk =>
      if len.toNat ≤ blk.length then
        (Except.ok (),
          { w with
            heap := heapStore w.heap buf
              (((a.data.drop start.toNat).take len.toNat).map some ++ blk.drop len.toNat) })
      else (Except.error Fault.invalidWrite, w)

/-- JNI `NewStringUTF(p)`: the Java string of the C string at `p`. -/
def NewStringUTF (mem : List Char) : String := String.mk (cstr mem)

/-- JNI `GetStringUTFChars(path, 0)`: the chars of a (non-null) Java string; the encoding
is left to the virtual machine and taken as the identity. -/
def GetStringUTFChars (path : String) : String := path

/-! ## The source functions -/

/-- Source `initMagic`, lines 23-27. -/
def initMagic {σ : Type} (L : LibMagic σ) (flags : Int) : Prog σ Nat := do
  let checker ← magic_open L flags
  let _ ← magic_load L checker none
  return checker

/-- Source `checkFile`, lines 29-35; the result is what the returned pointer `ret`
designates, the contents of the static array. -/
def checkFile {σ : Type} (L : LibMagic σ) (flags : Int) (path : String) :
    Prog σ (List Char) := do
  let checker ← initMagic L flags
  let s ← magic_file L checker path
  strcpy_retFile s
  magic_close L checker
  fun w => (Except.ok w.retFile, w)

/-- Source `checkStream`, lines 37-44. -/
def checkStream {σ : Type} (L : LibMagic σ) (flags : Int) (bytes : Nat) (len : Nat) :
    Prog σ (List Char) := do
  let checker ← initMagic L flags
  let s ← magic_buffer L checker bytes len
  strcpy_retStream s
  magic_close L checker
  free bytes
  fun w => (Except.ok w.retStream, w)

/-- Source `castBytes`, lines 46-53; the reference parameter `pointer` is returned next to
the `int` result. -/
def castBytes {σ : Type} (bytes : Option JByteArray) (pointer : Nat) : Prog σ (Int × Nat) :=
  match bytes with
  | none => pure (-1, pointer)
  | some a => do
    let len := wrap32 (GetArrayLength a)
    let pointer ← malloc (toSizeT (wrap32 (len + 1)))
    GetByteArrayRegion a 0 len pointer
    return (len, pointer)

/-- Source `Java_nl_kb_magicfile_MagicFile_checkText`, lines 60-62. -/
def Java_nl_kb_magicfile_MagicFile_checkText {σ : Type} (L : LibMagic σ) (path : String) :
    Prog σ String := do
  let r ← checkFile L L.MAGIC_NONE (GetStringUTFChars path)
  return NewStringUTF r

/-- Source `Java_nl_kb_magicfile_MagicFile_checkMime`, lines 69-71. -/
def Java_nl_kb_magicfile_MagicFile_checkMime {σ : Type} (L : LibMagic σ) (path : String) :
    Prog σ String := do
  let r ← checkFile L L.MAGIC_MIME_TYPE (GetStringUTFChars path)
  return NewStringUTF r

/-- Source `Java_nl_kb_magicfile_MagicFile_checkEncoding`, lines 78-80. -/
def Java_nl_kb_magicfile_MagicFile_checkEncoding {σ : Type} (L : LibMagic σ)
    (path : String) : Prog σ String := do
  let r ← checkFile L L.MAGIC_MIME_ENCODING (GetStringUTFChars path)
  return NewStringUTF r

/-- Source `Java_nl_kb_magicfile_MagicFile_checkTextStream`, lines 87-93. -/
def Java_nl_kb_magicfile_MagicFile_checkTextStream {σ : Type} (L : LibMagic σ)
    (bytes : Option JByteArray) : Prog σ String := do
  let pointer := 0
  let (len, pointer) ← castBytes bytes pointer
  if len < 0 then
    return NewStringUTF "fail".toList
  else
    let r ← checkStream L L.MAGIC_NONE pointer (toSizeT len)
    return NewStringUTF r

/-- Source `Java_nl_kb_magicfile_MagicFile_checkMimeStream`, lines 100-106. -/
def Java_nl_kb_magicfile_MagicFile_checkMimeStream {σ : Type} (L : LibMagic σ)
    (bytes : Option JByteArray) : Prog σ String := do
  let pointer := 0
  let (len, pointer) ← castBytes bytes pointer
  if len < 0 then
    return NewStringUTF "fail".toList
  else
    let r ← checkStream L L.MAGIC_MIME_TYPE pointer (toSizeT len)
    return NewStringUTF r

/-- Source `Java_nl_kb_magicfile_MagicFile_checkEncodingStream`, lines 113-119. -/
def Java_nl_kb_magicfile_MagicFile_checkEncodingStream {σ : Type} (L : LibMagic σ)
    (bytes : Option JByteArray) : Prog σ String := do
  let pointer := 0
  let (len, pointer) ← castBytes bytes pointer
  if len < 0 then
    return NewStringUTF "fail".toList
  else
    let r ← checkStream L L.MAGIC_MIME_ENCODING pointer (toSizeT len)
    return NewStringUTF r

/-! ## What the library answers -/

/-- The handle libmagic hands out for `magic_open(flags)` in library state `s`. -/
def libHandle {σ : Type} (L : LibMagic σ) (flags : Int) (s : σ) : Nat :=
  (L.magic_open flags s).1

/-- The status of `magic_load(handle, NULL)` on the detector just opened with `flags`. -/
def libLoadStatus {σ : Type} (L : LibMagic σ) (flags : Int) (s : σ) : Int :=
  (L.magic_load (libHandle L flags s) none (L.magic_open flags s).2).1

/-- The library state once a detector was opened with `flags` and asked to load the
default database. -/
def libReady {σ : Type} (L : LibMagic σ) (flags : Int) (s : σ) : σ :=
  (L.magic_load (libHandle L flags s) none (L.magic_open flags s).2).2

/-- The classification libmagic gives of `path` under `flags`: the answer of `magic_file`
on a detector opened with `flags` and default-loaded, starting from library state `s`. -/
def libFile {σ : Type} (L : LibMagic σ) (flags : Int) (path : String) (s : σ) :
    Option (List Char) :=
  (L.magic_file (libHandle L flags s) path (libReady L flags s)).1

/-- The classification libmagic gives of the bytes `data` under `flags`, likewise. -/
def libBuffer {σ : Type} (L : LibMagic σ) (flags : Int) (data : List Nat) (s : σ) :
    Option (List Char) :=
  (L.magic_buffer (libHandle L flags s) data (libReady L flags s)).1

/-! ## Devices for stating the properties -/

/-- The common body of the three path entry points, the flags left open. -/
def pathEntry {σ : Type} (L : LibMagic σ) (flags : Int) (path : String) : Prog σ String := do
  let r ← checkFile L flags (GetStringUTFChars path)
  return NewStringUTF r

/-- The common body of the three buffer entry points, the flags left open. -/
def bufferEntry {σ : Type} (L : LibMagic σ) (flags : Int) (bytes : Option JByteArray) :
    Prog σ String := do
  let pointer := 0
  let (len, pointer) ← castBytes bytes pointer
  if len < 0 then
    return NewStringUTF "fail".toList
  else
    let r ← checkStream L flags pointer (toSizeT len)
    return NewStringUTF r

/-- What the caller gets for a classification result `src`: the Java string of the copy
made through the 1024-byte static array, or the fault the copy runs into. -/
def deliver (src : Option (List Char)) : Except Fault String :=
  match src with
  | none => Except.error Fault.nullDeref
  | some m =>
    if (cstr m).length + 1 ≤ RET_SIZE then Except.ok (String.mk (cstr m))
    else Except.error Fault.bufferOverflow

/-- The libmagic calls a run added to the log of the world `w` it started from. -/
def callsOf {σ α : Type} (w : World σ) (r : Except Fault α × World σ) : List MagicCall :=
  r.2.trace.drop w.trace.length

/-- The flags of the `magic_open` calls in a list of calls, in order. -/
def openFlags : List MagicCall → List Int
  | [] => []
  | MagicCall.magic_open flags _ :: t => flags :: openFlags t
  | _ :: t => openFlags t

/-- The library `L` with the status reported by `magic_load` replaced by `v`; what the
load does to the library state is kept. -/
def withLoadStatus {σ : Type} (L : LibMagic σ) (v : Int) : LibMagic σ :=
  { L with magic_load := fun h db s => (v, (L.magic_load h db s).2) }

/-- The library is a deterministic function of mode and input: its classification does
not depend on the library state the call starts from. -/
def Deterministic {σ : Type} (L : LibMagic σ) : Prop :=
  (∀ flags path s1 s2, libFile L flags path s1 = libFile L flags path s2) ∧
  (∀ flags data s1 s2, libBuffer L flags data s1 = libBuffer L flags data s2)

/-- The six exported operations, by name. -/
inductive Op where
  | checkText
  | checkMime
  | checkEncoding
  | checkTextStream
  | checkMimeStream
  | checkEncodingStream
  deriving DecidableEq, Repr

/-- Run an exported operation: the path operations take `path`, the buffer operations
take `bytes`. -/
def runOp {σ : Type} (L : LibMagic σ) (op : Op) (path : String)
    (bytes : Option JByteArray) : Prog σ String :=
  match op with
  | Op.checkText => Java_nl_kb_magicfile_MagicFile_checkText L path
  | Op.checkMime => Java_nl_kb_magicfile_MagicFile_checkMime L path
  | Op.checkEncoding => Java_nl_kb_magicfile_MagicFile_checkEncoding L path
  | Op.checkTextStream => Java_nl_kb_magicfile_MagicFile_checkTextStream L bytes
  | Op.checkMimeStream => Java_nl_kb_magicfile_MagicFile_checkMimeStream L bytes
  | Op.checkEncodingStream => Java_nl_kb_magicfile_MagicFile_checkEncodingStream L bytes

/-! ## A small concrete library, for evaluating the code -/

/-- A toy libmagic whose state counts the calls made into it.  `magic_open` hands out the
count as a fresh non-null handle, the database always loads, and the answers depend on
the input only: on `"/unreadable"` the library fails (null result), `"/long"` is
described by 1024 chars, the empty buffer is `"empty"`, the one-byte buffer `[255]` is
not classified (null result), everything else is `"data"`. -/
def demoLib : LibMagic Nat where
  MAGIC_NONE := 0
  MAGIC_MIME_TYPE := 16
  MAGIC_MIME_ENCODING := 1024
  magic_open := fun _ s => (s + 1, s + 1)
  magic_load := fun _ _ s => (0, s + 1)
  magic_file := fun _ path s =>
    (if path = "/unreadable" then none
     else if path = "/long" then some (List.replicate 1024 (Char.ofNat 120))
     else some "data".toList, s + 1)
  magic_buffer := fun _ seen s =>
    (if seen = [] then some "empty".toList
     else if seen = [255] then none
     else some "data".toList, s + 1)
  magic_close := fun _ s => s + 1

/-- A fresh process: nothing open, nothing allocated, the statics zero-filled. -/
def world0 : World Nat where
  lib := 0
  trace := []
  handles := []
  heap := []
  brk := 0
  memlog := []
  retFile := List.replicate 1024 NUL
  retStream := List.replicate 1024 NUL

/-- The empty `byte[0]`. -/
def emptyArray : JByteArray := ⟨[], by decide⟩

/-- The one-byte array the toy library cannot classify. -/
def oneByteArray : JByteArray := ⟨[255], by decide⟩

/-- A three-byte array. -/
def threeBytes : JByteArray := ⟨[1, 2, 3], by decide⟩

/-- A world in which the three bytes 1, 2, 3 lie in a live four-byte block at address 1,
as `castBytes` leaves them. -/
def world1 : World Nat where
  lib := 0
  trace := []
  handles := []
  heap := [(1, [some 1, some 2, some 3, none])]
  brk := 1
  memlog := [MemEvent.malloc 4 1]
  retFile := List.replicate 1024 NUL
  retStream := List.replicate 1024 NUL

/-! ## Running the code symbolically -/

@[simp] theorem bind_run {σ α β : Type} (m : Prog σ α) (f : α → Prog σ β) (w : World σ) :
    (m >>= f) w = Prog.bind m f w := rfl

@[simp] theorem pure_run {σ α : Type} (a : α) (w : World σ) :
    (pure a : Prog σ α) w = (Except.ok a, w) := rfl

theorem Prog.bind_of_ok {σ α β : Type} {m : Prog σ α} {f : α → Prog σ β} {w w1 : World σ}
    {a : α} (h : m w = (Except.ok a, w1)) : Prog.bind m f w = f a w1 := by
  simp [Prog.bind, h]

theorem Prog.bind_of_error {σ α β : Type} {m : Prog σ α} {f : α → Prog σ β}
    {w w1 : World σ} {e : Fault} (h : m w = (Except.error e, w1)) :
    Prog.bind m f w = (Except.error e, w1) := by
  simp [Prog.bind, h]

theorem handles_restore (h : Nat) (hs : List Nat) :
    (if h = 0 then (if h = 0 then hs else h :: hs)
      else (if h = 0 then hs else h :: hs).erase h) = hs := by
  by_cases h0 : h = 0 <;> simp [h0]

theorem initMagic_run {σ : Type} (L : LibMagic σ) (flags : Int) (w : World σ) :
    initMagic L flags w =
      (Except.ok (libHandle L flags w.lib),
        { w with
          lib := libReady L flags w.lib
          trace := w.trace ++ [MagicCall.magic_open flags (libHandle L flags w.lib),
            MagicCall.magic_load (libHandle L flags w.lib) none]
          handles := if libHandle L flags w.lib = 0 then w.handles
                     else libHandle L flags w.lib :: w.handles }) := by
  simp [initMagic, Prog.bind, magic_open, magic_load, libHandle, libReady]

theorem checkFile_run {σ : Type} (L : LibMagic σ) (flags : Int) (path : String)
    (w : World σ) :
    checkFile L flags path w =
      match strcpy RET_SIZE w.retFile (libFile L flags path w.lib) with
      | Except.ok r =>
        (Except.ok r,
          { w with
            lib := L.magic_close (libHandle L flags w.lib)
              (L.magic_file (libHandle L flags w.lib) path (libReady L flags w.lib)).2
            trace := w.trace ++ [MagicCall.magic_open flags (libHandle L flags w.lib),
              MagicCall.magic_load (libHandle L flags w.lib) none,
              MagicCall.magic_file (libHandle L flags w.lib) path,
              MagicCall.magic_close (libHandle L flags w.lib)]
            retFile := r })
      | Except.error e =>
        (Except.error e,
          { w with
            lib := (L.magic_file (libHandle L flags w.lib) path (libReady L flags w.lib)).2
            trace := w.trace ++ [MagicCall.magic_open flags (libHandle L flags w.lib),
              MagicCall.magic_load (libHandle L flags w.lib) none,
              MagicCall.magic_file (libHandle L flags w.lib) path]
            handles := if libHandle L flags w.lib = 0 then w.handles
                       else libHandle L flags w.lib :: w.handles }) := by
  simp only [checkFile, bind_run, Prog.bind, initMagic_run, magic_file, strcpy_retFile,
    magic_close, libFile]
  cases hs : strcpy RET_SIZE w.retFile
      (L.magic_file (libHandle L flags w.lib) path (libReady L flags w.lib)).1 with
  | error e => simp
  | ok r => simp [handles_restore]

theorem heapFind_of_readBytes {h : Heap} {p len : Nat} {seen : List Nat}
    (hr : readBytes h p len = some seen) : ∃ blk, heapFind h p = some blk := by
  unfold readBytes at hr
  cases hf : heapFind h p with
  | none => simp [hf] at hr
  | some blk => exact ⟨blk, rfl⟩

theorem checkStream_run {σ : Type} (L : LibMagic σ) (flags : Int) (bytes len : Nat)
    (w : World σ) (seen : List Nat) (hr : readBytes w.heap bytes len = some seen) :
    checkStream L flags bytes len w =
      match strcpy RET_SIZE w.retStream (libBuffer L flags seen w.lib) with
      | Except.ok r =>
        (Except.ok r,
          { w with
            lib := L.magic_close (libHandle L flags w.lib)
              (L.magic_buffer (libHandle L flags w.lib) seen (libReady L flags w.lib)).2
            trace := w.trace ++ [MagicCall.magic_open flags (libHandle L flags w.lib),
              MagicCall.magic_load (libHandle L flags w.lib) none,
              MagicCall.magic_buffer (libHandle L flags w.lib) bytes len seen,
              MagicCall.magic_close (libHandle L flags w.lib)]
            heap := heapRemove w.heap bytes
            memlog := w.memlog ++ [MemEvent.free bytes]
            retStream := r })
      | Except.error e =>
        (Except.error e,
          { w with
            lib := (L.magic_buffer (libHandle L flags w.lib) seen (libReady L flags w.lib)).2
            trace := w.trace ++ [MagicCall.magic_open flags (libHandle L flags w.lib),
              MagicCall.magic_load (libHandle L flags w.lib) none,
              MagicCall.magic_buffer (libHandle L flags w.lib) bytes len seen]
            handles := if libHandle L flags w.lib = 0 then w.handles
                       else libHandle L flags w.lib :: w.handles }) := by
  obtain ⟨blk, hblk⟩ := heapFind_of_readBytes hr
  simp only [checkStream, bind_run, Prog.bind, initMagic_run, magic_buffer, hr,
    strcpy_retStream, magic_close, free, libBuffer]
  cases hs : strcpy RET_SIZE w.retStream
      (L.magic_buffer (libHandle L flags w.lib) seen (libReady L flags w.lib)).1 with
  | error e => simp
  | ok r => simp [handles_restore, hblk]

theorem wrap32_id {i : Int} (h0 : 0 ≤ i) (h1 : i < 2 ^ 31) : wrap32 i = i := by
  unfold wrap32
  omega

theorem toSizeT_ofNat {n : Nat} (h : n < 2 ^ 31) : toSizeT (n : Int) = n := by
  unfold toSizeT
  omega

theorem castBytes_some_run {σ : Type} (a : JByteArray) (pointer : Nat) (w : World σ) :
    castBytes (some a) pointer w =
      (Except.ok ((a.data.length : Int), w.brk + 1),
        { w with
          heap := (w.brk + 1, a.data.map some ++ [none]) :: w.heap
          brk := w.brk + 1
          memlog := w.memlog ++ [MemEvent.malloc (a.data.length + 1) (w.brk + 1)] }) := by
  have hfit := a.fits
  have h1 : wrap32 (a.data.length : Int) = (a.data.length : Int) :=
    wrap32_id (by omega) (by omega)
  have h2 : wrap32 ((a.data.length : Int) + 1) = ((a.data.length + 1 : Nat) : Int) := by
    rw [wrap32_id (by omega) (by omega)]; push_cast; rfl
  have h3 : toSizeT ((a.data.length + 1 : Nat) : Int) = a.data.length + 1 :=
    toSizeT_ofNat (by omega)
  simp only [castBytes, bind_run, Prog.bind, GetArrayLength, h1, h2, h3, malloc,
    GetByteArrayRegion, heapFind, heapStore]
  have h4 : ¬ ((a.data.length : Int) < 0) := by omega
  simp [List.replicate_succ', h4]

theorem initBytes_map_some (d : List Nat) : initBytes (d.map some) = some d := by
  induction d with
  | nil => rfl
  | cons x t ih => simp [initBytes, ih]

theorem readBytes_fresh (h : Heap) (p : Nat) (d : List Nat) :
    readBytes ((p, d.map some ++ [none]) :: h) p d.length = some d := by
  have ht : List.take d.length (d.map some ++ [none]) = d.map some := by
    rw [List.take_append_of_le_length (by simp)]
    rw [List.take_of_length_le (by simp)]
  simp [readBytes, heapFind, ht, initBytes_map_some]

theorem checkText_eq {σ : Type} (L : LibMagic σ) :
    Java_nl_kb_magicfile_MagicFile_checkText L = pathEntry L L.MAGIC_NONE := rfl

theorem checkMime_eq {σ : Type} (L : LibMagic σ) :
    Java_nl_kb_magicfile_MagicFile_checkMime L = pathEntry L L.MAGIC_MIME_TYPE := rfl

theorem checkEncoding_eq {σ : Type} (L : LibMagic σ) :
    Java_nl_kb_magicfile_MagicFile_checkEncoding L = pathEntry L L.MAGIC_MIME_ENCODING := rfl

theorem checkTextStream_eq {σ : Type} (L : LibMagic σ) :
    Java_nl_kb_magicfile_MagicFile_checkTextStream L = bufferEntry L L.MAGIC_NONE := rfl

theorem checkMimeStream_eq {σ : Type} (L : LibMagic σ) :
    Java_nl_kb_magicfile_MagicFile_checkMimeStream L = bufferEntry L L.MAGIC_MIME_TYPE := rfl

theorem checkEncodingStream_eq {σ : Type} (L : LibMagic σ) :
    Java_nl_kb_magicfile_MagicFile_checkEncodingStream L =
      bufferEntry L L.MAGIC_MIME_ENCODING := rfl

theorem pathEntry_run {σ : Type} (L : LibMagic σ) (flags : Int) (path : String)
    (w : World σ) :
    pathEntry L flags path w =
      match strcpy RET_SIZE w.retFile (libFile L flags path w.lib) with
      | Except.ok r =>
        (Except.ok (NewStringUTF r),
          { w with
            lib := L.magic_close (libHandle L flags w.lib)
              (L.magic_file (libHandle L flags w.lib) path (libReady L flags w.lib)).2
            trace := w.trace ++ [MagicCall.magic_open flags (libHandle L flags w.lib),
              MagicCall.magic_load (libHandle L flags w.lib) none,
              MagicCall.magic_file (libHandle L flags w.lib) path,
              MagicCall.magic_close (libHandle L flags w.lib)]
            retFile := r })
      | Except.error e =>
        (Except.error e,
          { w with
            lib := (L.magic_file (libHandle L flags w.lib) path (libReady L flags w.lib)).2
            trace := w.trace ++ [MagicCall.magic_open flags (libHandle L flags w.lib),
              MagicCall.magic_load (libHandle L flags w.lib) none,
              MagicCall.magic_file (libHandle L flags w.lib) path]
            handles := if libHandle L flags w.lib = 0 then w.handles
                       else libHandle L flags w.lib :: w.handles }) := by
  simp only [pathEntry, bind_run, Prog.bind, checkFile_run, GetStringUTFChars]
  cases hs : strcpy RET_SIZE w.retFile (libFile L flags path w.lib) with
  | error e => simp
  | ok r => simp

theorem newStringUTF_fail : NewStringUTF "fail".toList = "fail" := by decide

theorem bufferEntry_none_run {σ : Type} (L : LibMagic σ) (flags : Int) (w : World σ) :
    bufferEntry L flags none w = (Except.ok "fail", w) := by
  simp only [bufferEntry, castBytes, bind_run, Prog.bind, pure_run, newStringUTF_fail]
  simp

theorem bufferEntry_some_run {σ : Type} (L : LibMagic σ) (flags : Int) (a : JByteArray)
    (w : World σ) :
    bufferEntry L flags (some a) w =
      match strcpy RET_SIZE w.retStream (libBuffer L flags a.data w.lib) with
      | Except.ok r =>
        (Except.ok (NewStringUTF r),
          { w with
            lib := L.magic_close (libHandle L flags w.lib)
              (L.magic_buffer (libHandle L flags w.lib) a.data (libReady L flags w.lib)).2
            trace := w.trace ++ [MagicCall.magic_open flags (libHandle L flags w.lib),
              MagicCall.magic_load (libHandle L flags w.lib) none,
              MagicCall.magic_buffer (libHandle L flags w.lib) (w.brk + 1) a.data.length
                a.data,
              MagicCall.magic_close (libHandle L flags w.lib)]
            brk := w.brk + 1
            memlog := w.memlog ++ [MemEvent.malloc (a.data.length + 1) (w.brk + 1),
              MemEvent.free (w.brk + 1)]
            retStream := r })
      | Except.error e =>
        (Except.error e,
          { w with
            lib := (L.magic_buffer (libHandle L flags w.lib) a.data
              (libReady L flags w.lib)).2
            trace := w.trace ++ [MagicCall.magic_open flags (libHandle L flags w.lib),
              MagicCall.magic_load (libHandle L flags w.lib) none,
              MagicCall.magic_buffer (libHandle L flags w.lib) (w.brk + 1) a.data.length
                a.data]
            handles := if libHandle L flags w.lib = 0 then w.handles
                       else libHandle L flags w.lib :: w.handles
            heap := (w.brk + 1, a.data.map some ++ [none]) :: w.heap
            brk := w.brk + 1
            memlog := w.memlog ++ [MemEvent.malloc (a.data.length + 1) (w.brk + 1)] }) := by
  have h4 : ¬ ((a.data.length : Int) < 0) := by have := a.fits; omega
  have h5 : toSizeT (a.data.length : Int) = a.data.length :=
    toSizeT_ofNat (by have := a.fits; omega)
  unfold bufferEntry
  simp only [bind_run]
  rw [Prog.bind_of_ok (castBytes_some_run a 0 w)]
  dsimp only
  rw [if_neg h4, h5]
  simp only [bind_run, Prog.bind]
  rw [checkStream_run L flags (w.brk + 1) a.data.length _ a.data (readBytes_fresh _ _ _)]
  dsimp only
  cases hs : strcpy RET_SIZE w.retStream (libBuffer L flags a.data w.lib) with
  | error e => simp
  | ok r => simp [heapRemove]

/-! ## The copy through the static array -/

theorem cstr_terminated (m rest : List Char) : cstr (cstr m ++ NUL :: rest) = cstr m := by
  unfold cstr
  induction m with
  | nil => simp [List.takeWhile]
  | cons x t ih =>
    by_cases hx : x = NUL
    · simp [List.takeWhile, hx]
    · have hb : (x != NUL) = true := by simpa using hx
      rw [List.takeWhile_cons, if_pos hb, List.cons_append, List.takeWhile_cons, if_pos hb, ih]

theorem strcpy_fits (dst m : List Char) (h : (cstr m).length ≤ 1023) :
    strcpy RET_SIZE dst (some m) =
      Except.ok (cstr m ++ NUL :: dst.drop ((cstr m).length + 1)) := by
  have h1 : (cstr m).length + 1 ≤ RET_SIZE := by unfold RET_SIZE; omega
  simp [strcpy, h1]

theorem strcpy_deliver (dst : List Char) (src : Option (List Char)) :
    (match strcpy RET_SIZE dst src with
      | Except.ok r => Except.ok (NewStringUTF r)
      | Except.error e => Except.error e) = deliver src := by
  cases src with
  | none => rfl
  | some m =>
    by_cases h : (cstr m).length + 1 ≤ RET_SIZE
    · simp [strcpy, deliver, h, NewStringUTF, cstr_terminated]
    · simp [strcpy, deliver, h]

theorem pathEntry_result {σ : Type} (L : LibMagic σ) (flags : Int) (path : String)
    (w : World σ) : (pathEntry L flags path w).1 = deliver (libFile L flags path w.lib) := by
  rw [pathEntry_run, ← strcpy_deliver w.retFile]
  cases strcpy RET_SIZE w.retFile (libFile L flags path w.lib) <;> rfl

theorem bufferEntry_result {σ : Type} (L : LibMagic σ) (flags : Int) (a : JByteArray)
    (w : World σ) :
    (bufferEntry L flags (some a) w).1 = deliver (libBuffer L flags a.data w.lib) := by
  rw [bufferEntry_some_run, ← strcpy_deliver w.retStream]
  cases strcpy RET_SIZE w.retStream (libBuffer L flags a.data w.lib) <;> rfl

theorem deliver_fits (m : List Char) (h : (cstr m).length ≤ 1023) :
    deliver (some m) = Except.ok (String.mk (cstr m)) := by
  have h1 : (cstr m).length + 1 ≤ RET_SIZE := by unfold RET_SIZE; omega
  simp [deliver, h1]

theorem callsOf_append {σ α : Type} (w : World σ) (r : Except Fault α × World σ)
    (l : List MagicCall) (h : r.2.trace = w.trace ++ l) : callsOf w r = l := by
  simp [callsOf, h]

theorem pathEntry_trace {σ : Type} (L : LibMagic σ) (flags : Int) (path : String)
    (w : World σ) :
    (pathEntry L flags path w).2.trace =
      w.trace ++ (MagicCall.magic_open flags (libHandle L flags w.lib) ::
        MagicCall.magic_load (libHandle L flags w.lib) none ::
        MagicCall.magic_file (libHandle L flags w.lib) path ::
        (match deliver (libFile L flags path w.lib) with
          | Except.ok _ => [MagicCall.magic_close (libHandle L flags w.lib)]
          | Except.error _ => [])) := by
  rw [pathEntry_run, ← strcpy_deliver w.retFile]
  cases strcpy RET_SIZE w.retFile (libFile L flags path w.lib) <;> rfl

theorem bufferEntry_trace {σ : Type} (L : LibMagic σ) (flags : Int) (a : JByteArray)
    (w : World σ) :
    (bufferEntry L flags (some a) w).2.trace =
      w.trace ++ (MagicCall.magic_open flags (libHandle L flags w.lib) ::
        MagicCall.magic_load (libHandle L flags w.lib) none ::
        MagicCall.magic_buffer (libHandle L flags w.lib) (w.brk + 1) a.data.length a.data ::
        (match deliver (libBuffer L flags a.data w.lib) with
          | Except.ok _ => [MagicCall.magic_close (libHandle L flags w.lib)]
          | Except.error _ => [])) := by
  rw [bufferEntry_some_run, ← strcpy_deliver w.retStream]
  cases strcpy RET_SIZE w.retStream (libBuffer L flags a.data w.lib) <;> rfl

theorem pathEntry_openFlags {σ : Type} (L : LibMagic σ) (flags : Int) (path : String)
    (w : World σ) : openFlags (callsOf w (pathEntry L flags path w)) = [flags] := by
  rw [callsOf_append w _ _ (pathEntry_trace L flags path w)]
  cases deliver (libFile L flags path w.lib) <;> rfl

theorem bufferEntry_openFlags {σ : Type} (L : LibMagic σ) (flags : Int) (a : JByteArray)
    (w : World σ) : openFlags (callsOf w (bufferEntry L flags (some a) w)) = [flags] := by
  rw [callsOf_append w _ _ (bufferEntry_trace L flags a w)]
  cases deliver (libBuffer L flags a.data w.lib) <;> rfl

/-! ## The claims -/

/-- C1: on a null byte array each of the three buffer entry points returns exactly the
string "fail" and leaves the whole world as it was: no libmagic call is logged (no open,
load, classify or close), nothing is allocated and nothing freed. -/
theorem C1_null_buffer_returns_fail {σ : Type} (L : LibMagic σ) (w : World σ) :
    Java_nl_kb_magicfile_MagicFile_checkTextStream L none w = (Except.ok "fail", w) ∧
    Java_nl_kb_magicfile_MagicFile_checkMimeStream L none w = (Except.ok "fail", w) ∧
    Java_nl_kb_magicfile_MagicFile_checkEncodingStream L none w = (Except.ok "fail", w) := by
  rw [checkTextStream_eq, checkMimeStream_eq, checkEncodingStream_eq]
  exact ⟨bufferEntry_none_run L _ w, bufferEntry_none_run L _ w, bufferEntry_none_run L _ w⟩

/-- C2, as stated, fails: on the empty `byte[0]` the entry point `checkTextStream` does
not return "fail"; it calls `magic_buffer` with length 0 and returns what the library
says ("empty" for the toy library). -/
theorem C2_empty_buffer_counterexample :
    (Java_nl_kb_magicfile_MagicFile_checkTextStream demoLib (some emptyArray) world0).1
      = Except.ok "empty" ∧
    (Java_nl_kb_magicfile_MagicFile_checkTextStream demoLib (some emptyArray) world0).1
      ≠ Except.ok "fail" ∧
    (Java_nl_kb_magicfile_MagicFile_checkTextStream demoLib (some emptyArray) world0).2.trace
      = [MagicCall.magic_open 0 1, MagicCall.magic_load 1 none,
         MagicCall.magic_buffer 1 1 0 [], MagicCall.magic_close 1] := by
  decide

/-- C2, amended: for every non-null byte array of length 0 each of the three buffer entry
points does attempt classification: it calls `magic_buffer` with length 0 over its
internal copy, on the detector it opened with its own mode, and when the library answers
with a string of at most 1023 chars the entry point returns that string. -/
theorem C2_empty_buffer_is_classified {σ : Type} (L : LibMagic σ) (w : World σ)
    (a : JByteArray) (ha : a.data.length = 0) :
    (MagicCall.magic_buffer (libHandle L L.MAGIC_NONE w.lib) (w.brk + 1) 0 [] ∈
        callsOf w (Java_nl_kb_magicfile_MagicFile_checkTextStream L (some a) w) ∧
      ∀ s, libBuffer L L.MAGIC_NONE [] w.lib = some s → (cstr s).length ≤ 1023 →
        (Java_nl_kb_magicfile_MagicFile_checkTextStream L (some a) w).1
          = Except.ok (String.mk (cstr s))) ∧
    (MagicCall.magic_buffer (libHandle L L.MAGIC_MIME_TYPE w.lib) (w.brk + 1) 0 [] ∈
        callsOf w (Java_nl_kb_magicfile_MagicFile_checkMimeStream L (some a) w) ∧
      ∀ s, libBuffer L L.MAGIC_MIME_TYPE [] w.lib = some s → (cstr s).length ≤ 1023 →
        (Java_nl_kb_magicfile_MagicFile_checkMimeStream L (some a) w).1
          = Except.ok (String.mk (cstr s))) ∧
    (MagicCall.magic_buffer (libHandle L L.MAGIC_MIME_ENCODING w.lib) (w.brk + 1) 0 [] ∈
        callsOf w (Java_nl_kb_magicfile_MagicFile_checkEncodingStream L (some a) w) ∧
      ∀ s, libBuffer L L.MAGIC_MIME_ENCODING [] w.lib = some s → (cstr s).length ≤ 1023 →
        (Java_nl_kb_magicfile_MagicFile_checkEncodingStream L (some a) w).1
          = Except.ok (String.mk (cstr s))) := by
  have hd : a.data = [] := List.length_eq_zero.mp ha
  have key : ∀ flags : Int,
      MagicCall.magic_buffer (libHandle L flags w.lib) (w.brk + 1) 0 [] ∈
        callsOf w (bufferEntry L flags (some a) w) ∧
      ∀ s, libBuffer L flags [] w.lib = some s → (cstr s).length ≤ 1023 →
        (bufferEntry L flags (some a) w).1 = Except.ok (String.mk (cstr s)) := by
    intro flags
    constructor
    · rw [callsOf_append w _ _ (bufferEntry_trace L flags a w), hd]
      simp
    · intro s hs hlen
      rw [bufferEntry_result, hd, hs, deliver_fits s hlen]
  rw [checkTextStream_eq, checkMimeStream_eq, checkEncodingStream_eq]
  exact ⟨key _, key _, key _⟩

/-- Witness of C2 amended: the toy library on the empty array. -/
theorem C2_empty_buffer_is_classified_witness :
    emptyArray.data.length = 0 ∧
    (Java_nl_kb_magicfile_MagicFile_checkTextStream demoLib (some emptyArray) world0).1
      = Except.ok (String.mk (cstr "empty".toList)) :=
  ⟨by decide,
    (C2_empty_buffer_is_classified demoLib world0 emptyArray (by decide)).1.2
      "empty".toList (by decide) (by decide)⟩

set_option maxRecDepth 20000 in
/-- C3 at its failing input: the toy library yields a string for the path "/long" under
`MAGIC_NONE`, 1024 times the char x.  With its NUL the copy needs 1025 chars of the
1024-char static array, so the `strcpy` of `checkFile` writes past the end of `ret`
(undefined behaviour) and `checkText` does not deliver the string the library gave. -/
theorem C3_long_string_overflows_ret :
    libFile demoLib demoLib.MAGIC_NONE "/long" world0.lib
      = some (List.replicate 1024 (Char.ofNat 120)) ∧
    strcpy RET_SIZE world0.retFile (some (List.replicate 1024 (Char.ofNat 120)))
      = Except.error Fault.bufferOverflow ∧
    (Java_nl_kb_magicfile_MagicFile_checkText demoLib "/long" world0).1
      = Except.error Fault.bufferOverflow ∧
    (Java_nl_kb_magicfile_MagicFile_checkText demoLib "/long" world0).1
      ≠ Except.ok (String.mk (List.replicate 1024 (Char.ofNat 120))) := by
  decide

/-- Within the capacity of the static array the entry points do what their names
promise: each of the six opens the detector with the mode of its name and no other (`checkText`, `checkTextStream`: `MAGIC_NONE`; `checkMime`,
`checkMimeStream`: `MAGIC_MIME_TYPE`; `checkEncoding`, `checkEncodingStream`:
`MAGIC_MIME_ENCODING`): it is the one `magic_open` a path variant makes and the one a
buffer variant makes on a non-null array (on null it makes none).  For every input on
which the library yields a string of at most 1023 chars the result is the classification
libmagic gives that same input (the given path, the given bytes) under that mode. -/
theorem entry_points_use_their_mode {σ : Type} (L : LibMagic σ) (w : World σ)
    (path : String) (bytes : Option JByteArray) :
    (openFlags (callsOf w (Java_nl_kb_magicfile_MagicFile_checkText L path w))
        = [L.MAGIC_NONE] ∧
      ∀ s, libFile L L.MAGIC_NONE path w.lib = some s → (cstr s).length ≤ 1023 →
        (Java_nl_kb_magicfile_MagicFile_checkText L path w).1
          = Except.ok (String.mk (cstr s))) ∧
    (openFlags (callsOf w (Java_nl_kb_magicfile_MagicFile_checkMime L path w))
        = [L.MAGIC_MIME_TYPE] ∧
      ∀ s, libFile L L.MAGIC_MIME_TYPE path w.lib = some s → (cstr s).length ≤ 1023 →
        (Java_nl_kb_magicfile_MagicFile_checkMime L path w).1
          = Except.ok (String.mk (cstr s))) ∧
    (openFlags (callsOf w (Java_nl_kb_magicfile_MagicFile_checkEncoding L path w))
        = [L.MAGIC_MIME_ENCODING] ∧
      ∀ s, libFile L L.MAGIC_MIME_ENCODING path w.lib = some s → (cstr s).length ≤ 1023 →
        (Java_nl_kb_magicfile_MagicFile_checkEncoding L path w).1
          = Except.ok (String.mk (cstr s))) ∧
    ((∀ f ∈ openFlags (callsOf w (Java_nl_kb_magicfile_MagicFile_checkTextStream L bytes w)),
        f = L.MAGIC_NONE) ∧
      ∀ a, bytes = some a →
        openFlags (callsOf w (Java_nl_kb_magicfile_MagicFile_checkTextStream L bytes w))
          = [L.MAGIC_NONE] ∧
        ∀ s, libBuffer L L.MAGIC_NONE a.data w.lib = some s → (cstr s).length ≤ 1023 →
          (Java_nl_kb_magicfile_MagicFile_checkTextStream L bytes w).1
            = Except.ok (String.mk (cstr s))) ∧
    ((∀ f ∈ openFlags (callsOf w (Java_nl_kb_magicfile_MagicFile_checkMimeStream L bytes w)),
        f = L.MAGIC_MIME_TYPE) ∧
      ∀ a, bytes = some a →
        openFlags (callsOf w (Java_nl_kb_magicfile_MagicFile_checkMimeStream L bytes w))
          = [L.MAGIC_MIME_TYPE] ∧
        ∀ s, libBuffer L L.MAGIC_MIME_TYPE a.data w.lib = some s → (cstr s).length ≤ 1023 →
          (Java_nl_kb_magicfile_MagicFile_checkMimeStream L bytes w).1
            = Except.ok (String.mk (cstr s))) ∧
    ((∀ f ∈ openFlags
          (callsOf w (Java_nl_kb_magicfile_MagicFile_checkEncodingStream L bytes w)),
        f = L.MAGIC_MIME_ENCODING) ∧
      ∀ a, bytes = some a →
        openFlags (callsOf w (Java_nl_kb_magicfile_MagicFile_checkEncodingStream L bytes w))
          = [L.MAGIC_MIME_ENCODING] ∧
        ∀ s, libBuffer L L.MAGIC_MIME_ENCODING a.data w.lib = some s →
          (cstr s).length ≤ 1023 →
          (Java_nl_kb_magicfile_MagicFile_checkEncodingStream L bytes w).1
            = Except.ok (String.mk (cstr s))) := by
  have kp : ∀ flags : Int,
      openFlags (callsOf w (pathEntry L flags path w)) = [flags] ∧
      ∀ s, libFile L flags path w.lib = some s → (cstr s).length ≤ 1023 →
        (pathEntry L flags path w).1 = Except.ok (String.mk (cstr s)) := by
    intro flags
    refine ⟨pathEntry_openFlags L flags path w, ?_⟩
    intro s hs hlen
    rw [pathEntry_result, hs, deliver_fits s hlen]
  have kb : ∀ flags : Int,
      (∀ f ∈ openFlags (callsOf w (bufferEntry L flags bytes w)), f = flags) ∧
      ∀ a, bytes = some a →
        openFlags (callsOf w (bufferEntry L flags bytes w)) = [flags] ∧
        ∀ s, libBuffer L flags a.data w.lib = some s → (cstr s).length ≤ 1023 →
          (bufferEntry L flags bytes w).1 = Except.ok (String.mk (cstr s)) := by
    intro flags
    constructor
    · cases bytes with
      | none => simp [bufferEntry_none_run, callsOf, openFlags]
      | some a => simp [bufferEntry_openFlags]
    · intro a ha
      subst ha
      refine ⟨bufferEntry_openFlags L flags a w, ?_⟩
      intro s hs hlen
      rw [bufferEntry_result, hs, deliver_fits s hlen]
  rw [checkText_eq, checkMime_eq, checkEncoding_eq, checkTextStream_eq, checkMimeStream_eq,
    checkEncodingStream_eq]
  exact ⟨kp _, kp _, kp _, kb _, kb _, kb _⟩

/-- An instance: the toy library on the path "/etc/hosts" under
`MAGIC_MIME_TYPE`. -/
theorem entry_points_use_their_mode_example :
    libFile demoLib demoLib.MAGIC_MIME_TYPE "/etc/hosts" world0.lib = some "data".toList ∧
    (cstr "data".toList).length ≤ 1023 ∧
    (Java_nl_kb_magicfile_MagicFile_checkMime demoLib "/etc/hosts" world0).1
      = Except.ok (String.mk (cstr "data".toList)) :=
  ⟨by decide, by decide,
    (entry_points_use_their_mode demoLib world0 "/etc/hosts" (some threeBytes)).2.1.2
      "data".toList (by decide) (by decide)⟩

/-- C4: when the classification is a non-null string of at most 1023 chars, the
`strcpy` into the 1024-byte static array succeeds (neither the null-pointer nor the
out-of-bounds fault is reached, and the array keeps its size), and `checkFile` and
`checkStream` return a pointer to a C string equal to the one libmagic gave, char for
char, of length at most 1023. -/
theorem C4_copy_in_bounds {σ : Type} (L : LibMagic σ) (flags : Int) (w : World σ)
    (s : List Char) (hlen : (cstr s).length ≤ 1023) :
    (∀ path, libFile L flags path w.lib = some s →
      ∃ r, strcpy RET_SIZE w.retFile (some s) = Except.ok r ∧
        (checkFile L flags path w).1 = Except.ok r ∧
        cstr r = cstr s ∧ (cstr r).length ≤ 1023 ∧
        (w.retFile.length = RET_SIZE → r.length = RET_SIZE)) ∧
    (∀ bytes len seen, readBytes w.heap bytes len = some seen →
      libBuffer L flags seen w.lib = some s →
      ∃ r, strcpy RET_SIZE w.retStream (some s) = Except.ok r ∧
        (checkStream L flags bytes len w).1 = Except.ok r ∧
        cstr r = cstr s ∧ (cstr r).length ≤ 1023 ∧
        (w.retStream.length = RET_SIZE → r.length = RET_SIZE)) := by
  have hsize : ∀ dst : List Char, dst.length = RET_SIZE →
      (cstr s ++ NUL :: dst.drop ((cstr s).length + 1)).length = RET_SIZE := by
    intro dst hd
    simp only [List.length_append, List.length_cons, List.length_drop, hd, RET_SIZE]
    omega
  constructor
  · intro path hs
    refine ⟨_, strcpy_fits w.retFile s hlen, ?_, cstr_terminated _ _, ?_, hsize _⟩
    · rw [checkFile_run, hs, strcpy_fits w.retFile s hlen]
    · rw [cstr_terminated]; exact hlen
  · intro bytes len seen hr hs
    refine ⟨_, strcpy_fits w.retStream s hlen, ?_, cstr_terminated _ _, ?_, hsize _⟩
    · rw [checkStream_run L flags bytes len w seen hr, hs, strcpy_fits w.retStream s hlen]
    · rw [cstr_terminated]; exact hlen

/-- Witness of C4: the toy library on the path "/etc/hosts"; the copy of "data" fits and
is what `checkFile` returns, the array keeping its 1024 chars. -/
theorem C4_copy_in_bounds_witness :
    (cstr "data".toList).length ≤ 1023 ∧
    libFile demoLib demoLib.MAGIC_NONE "/etc/hosts" world0.lib = some "data".toList ∧
    ∃ r, (checkFile demoLib demoLib.MAGIC_NONE "/etc/hosts" world0).1 = Except.ok r ∧
      cstr r = "data".toList ∧ r.length = 1024 := by
  obtain ⟨r, _, h2, h3, _, h5⟩ :=
    (C4_copy_in_bounds demoLib demoLib.MAGIC_NONE world0 "data".toList (by decide)).1
      "/etc/hosts" (by decide)
  exact ⟨by decide, by decide, r, h2, h3, h5 (List.length_replicate 1024 NUL)⟩

/-- On the success path `checkFile` and `checkStream` do close the detector they opened:
when classification yields a string of at most 1023 chars the open handles are the same
after the call as before. -/
theorem handles_restored_on_string {σ : Type} (L : LibMagic σ) (flags : Int) (w : World σ)
    (s : List Char) (hlen : (cstr s).length ≤ 1023) :
    (∀ path, libFile L flags path w.lib = some s →
      (checkFile L flags path w).2.handles = w.handles) ∧
    (∀ bytes len seen, readBytes w.heap bytes len = some seen →
      libBuffer L flags seen w.lib = some s →
      (checkStream L flags bytes len w).2.handles = w.handles) := by
  constructor
  · intro path hs
    rw [checkFile_run, hs, strcpy_fits w.retFile s hlen]
  · intro bytes len seen hr hs
    rw [checkStream_run L flags bytes len w seen hr, hs, strcpy_fits w.retStream s hlen]

/-- On the success path a buffer entry point does free the copy `castBytes` made: when
classification yields a string of at most 1023 chars the live blocks are the same after
the call as before, and the allocator was called twice, one `malloc` and one `free` of
the block it returned. -/
theorem buffer_released_on_string {σ : Type} (L : LibMagic σ) (flags : Int) (w : World σ)
    (a : JByteArray) (s : List Char) (hs : libBuffer L flags a.data w.lib = some s)
    (hlen : (cstr s).length ≤ 1023) :
    (bufferEntry L flags (some a) w).2.heap = w.heap ∧
    (bufferEntry L flags (some a) w).2.memlog = w.memlog ++
      [MemEvent.malloc (a.data.length + 1) (w.brk + 1), MemEvent.free (w.brk + 1)] := by
  rw [bufferEntry_some_run, hs, strcpy_fits w.retStream s hlen]
  exact ⟨rfl, rfl⟩

/-- C5 at its failing input: the toy library fails on "/unreadable" and `magic_file`
yields null; `checkFile` then faults in `strcpy` with the handle 1 it opened still open
and no `magic_close` made, and the same happens to `checkStream` behind
`checkTextStream` on the one-byte array the library does not classify. -/
theorem C5_null_classification_leaves_handle_open :
    world0.handles = [] ∧
    libFile demoLib demoLib.MAGIC_NONE "/unreadable" world0.lib = none ∧
    (checkFile demoLib demoLib.MAGIC_NONE "/unreadable" world0).1
      = Except.error Fault.nullDeref ∧
    (checkFile demoLib demoLib.MAGIC_NONE "/unreadable" world0).2.handles = [1] ∧
    (checkFile demoLib demoLib.MAGIC_NONE "/unreadable" world0).2.trace
      = [MagicCall.magic_open 0 1, MagicCall.magic_load 1 none,
         MagicCall.magic_file 1 "/unreadable"] ∧
    (Java_nl_kb_magicfile_MagicFile_checkTextStream demoLib (some oneByteArray) world0).1
      = Except.error Fault.nullDeref ∧
    (Java_nl_kb_magicfile_MagicFile_checkTextStream demoLib (some oneByteArray)
      world0).2.handles = [1] := by
  decide

/-- C6 at its failing input: on the one-byte array the toy library does not classify,
`magic_buffer` yields null and `checkTextStream` faults in `strcpy`; the two-byte copy
made by `castBytes` is still live and the allocator log holds a `malloc` and no `free`. -/
theorem C6_null_classification_leaks_buffer :
    world0.heap = [] ∧
    libBuffer demoLib demoLib.MAGIC_NONE oneByteArray.data world0.lib = none ∧
    (Java_nl_kb_magicfile_MagicFile_checkTextStream demoLib (some oneByteArray) world0).1
      = Except.error Fault.nullDeref ∧
    (Java_nl_kb_magicfile_MagicFile_checkTextStream demoLib (some oneByteArray)
      world0).2.heap = [(1, [some 255, none])] ∧
    (Java_nl_kb_magicfile_MagicFile_checkTextStream demoLib (some oneByteArray)
      world0).2.memlog = [MemEvent.malloc 2 1] := by
  decide

theorem runOp_result {σ : Type} (L : LibMagic σ) (op : Op) (path : String)
    (bytes : Option JByteArray) (w : World σ) :
    (runOp L op path bytes w).1 =
      match op, bytes with
      | Op.checkText, _ => deliver (libFile L L.MAGIC_NONE path w.lib)
      | Op.checkMime, _ => deliver (libFile L L.MAGIC_MIME_TYPE path w.lib)
      | Op.checkEncoding, _ => deliver (libFile L L.MAGIC_MIME_ENCODING path w.lib)
      | Op.checkTextStream, some a => deliver (libBuffer L L.MAGIC_NONE a.data w.lib)
      | Op.checkMimeStream, some a => deliver (libBuffer L L.MAGIC_MIME_TYPE a.data w.lib)
      | Op.checkEncodingStream, some a =>
        deliver (libBuffer L L.MAGIC_MIME_ENCODING a.data w.lib)
      | _, none => Except.ok "fail" := by
  cases op <;> cases bytes <;>
    simp only [runOp, checkText_eq, checkMime_eq, checkEncoding_eq, checkTextStream_eq,
      checkMimeStream_eq, checkEncodingStream_eq, pathEntry_result, bufferEntry_result,
      bufferEntry_none_run]

/-- C7: the outcome of every one of the six operations (the returned string, or the
fault) is the same from any two worlds with the same library state, whatever the two
static scratch arrays (and the rest of the world) held before; and when the library is a
deterministic function of mode and input, the outcome is the same from any two worlds
at all, in particular when the operation is called twice in succession. -/
theorem C7_result_independent_of_scratch {σ : Type} (L : LibMagic σ) (op : Op)
    (path : String) (bytes : Option JByteArray) :
    (∀ w1 w2 : World σ, w1.lib = w2.lib →
      (runOp L op path bytes w1).1 = (runOp L op path bytes w2).1) ∧
    (Deterministic L → ∀ w1 w2 : World σ,
      (runOp L op path bytes w1).1 = (runOp L op path bytes w2).1) ∧
    (Deterministic L → ∀ w : World σ,
      (runOp L op path bytes (runOp L op path bytes w).2).1
        = (runOp L op path bytes w).1) := by
  have hdet : Deterministic L → ∀ w1 w2 : World σ,
      (runOp L op path bytes w1).1 = (runOp L op path bytes w2).1 := by
    intro hd w1 w2
    rw [runOp_result, runOp_result]
    cases op <;> cases bytes <;>
      simp only [hd.1 _ _ w1.lib w2.lib, hd.2 _ _ w1.lib w2.lib]
  refine ⟨?_, hdet, fun hd w => hdet hd _ _⟩
  intro w1 w2 hlib
  rw [runOp_result, runOp_result, hlib]

theorem demoLib_deterministic : Deterministic demoLib :=
  ⟨fun _ _ _ _ => rfl, fun _ _ _ _ => rfl⟩

/-- Witness of C7: the toy library is deterministic, and `checkMime` called twice in
succession on "/etc/hosts" gives the same string. -/
theorem C7_result_independent_of_scratch_witness :
    Deterministic demoLib ∧
    (runOp demoLib Op.checkMime "/etc/hosts" none
        (runOp demoLib Op.checkMime "/etc/hosts" none world0).2).1
      = (runOp demoLib Op.checkMime "/etc/hosts" none world0).1 ∧
    (runOp demoLib Op.checkMime "/etc/hosts" none world0).1 = Except.ok "data" :=
  ⟨demoLib_deterministic,
    (C7_result_independent_of_scratch demoLib Op.checkMime "/etc/hosts" none).2.2
      demoLib_deterministic world0,
    by decide⟩

set_option maxRecDepth 20000 in
/-- C8 at its failing input: for the path "/long" classification yields a string (1024
chars).  `checkFile` has then made `magic_open`, `magic_load` and `magic_file`, and the
`strcpy` that stands between the classify and the `magic_close` writes past the end of
`ret` (undefined behaviour): the four-call sequence is not what the code guarantees. -/
theorem C8_long_string_overflows_before_close :
    libFile demoLib demoLib.MAGIC_NONE "/long" world0.lib
      = some (List.replicate 1024 (Char.ofNat 120)) ∧
    strcpy RET_SIZE world0.retFile (some (List.replicate 1024 (Char.ofNat 120)))
      = Except.error Fault.bufferOverflow ∧
    (checkFile demoLib demoLib.MAGIC_NONE "/long" world0).1
      = Except.error Fault.bufferOverflow ∧
    callsOf world0 (checkFile demoLib demoLib.MAGIC_NONE "/long" world0)
      = [MagicCall.magic_open 0 1, MagicCall.magic_load 1 none,
         MagicCall.magic_file 1 "/long"] := by
  decide

/-- Within the capacity of the static array the call sequence is the intended one: for
every call of `checkFile` or `checkStream` in which classification yields a string of
at most 1023 chars, the libmagic calls made are exactly
`magic_open(flags)`, `magic_load(handle, NULL)`, one classify (`magic_file` on the path,
`magic_buffer` on the pointer and length) and `magic_close(handle)`, in that order, each
once, all on the handle `magic_open` returned. -/
theorem call_sequence_on_string {σ : Type} (L : LibMagic σ) (flags : Int) (w : World σ)
    (s : List Char) (hlen : (cstr s).length ≤ 1023) :
    (∀ path, libFile L flags path w.lib = some s →
      (checkFile L flags path w).2.trace = w.trace ++
        [MagicCall.magic_open flags (libHandle L flags w.lib),
         MagicCall.magic_load (libHandle L flags w.lib) none,
         MagicCall.magic_file (libHandle L flags w.lib) path,
         MagicCall.magic_close (libHandle L flags w.lib)]) ∧
    (∀ bytes len seen, readBytes w.heap bytes len = some seen →
      libBuffer L flags seen w.lib = some s →
      (checkStream L flags bytes len w).2.trace = w.trace ++
        [MagicCall.magic_open flags (libHandle L flags w.lib),
         MagicCall.magic_load (libHandle L flags w.lib) none,
         MagicCall.magic_buffer (libHandle L flags w.lib) bytes len seen,
         MagicCall.magic_close (libHandle L flags w.lib)]) := by
  constructor
  · intro path hs
    rw [checkFile_run, hs, strcpy_fits w.retFile s hlen]
  · intro bytes len seen hr hs
    rw [checkStream_run L flags bytes len w seen hr, hs, strcpy_fits w.retStream s hlen]

/-- An instance: `checkStream` of the toy library over the three bytes at
address 1. -/
theorem call_sequence_on_string_example :
    (cstr "data".toList).length ≤ 1023 ∧
    readBytes world1.heap 1 3 = some [1, 2, 3] ∧
    libBuffer demoLib demoLib.MAGIC_MIME_TYPE [1, 2, 3] world1.lib = some "data".toList ∧
    (checkStream demoLib demoLib.MAGIC_MIME_TYPE 1 3 world1).2.trace = world1.trace ++
      [MagicCall.magic_open demoLib.MAGIC_MIME_TYPE
         (libHandle demoLib demoLib.MAGIC_MIME_TYPE world1.lib),
       MagicCall.magic_load (libHandle demoLib demoLib.MAGIC_MIME_TYPE world1.lib) none,
       MagicCall.magic_buffer (libHandle demoLib demoLib.MAGIC_MIME_TYPE world1.lib) 1 3
         [1, 2, 3],
       MagicCall.magic_close (libHandle demoLib demoLib.MAGIC_MIME_TYPE world1.lib)] :=
  ⟨by decide, by decide, by decide,
    (call_sequence_on_string demoLib demoLib.MAGIC_MIME_TYPE world1 "data".toList (by decide)).2
      1 3 [1, 2, 3] (by decide) (by decide)⟩

/-- C9: the status of the default-database load is not looked at.  Replacing the status
`magic_load` reports by any value `v` changes nothing in `initMagic`, `checkFile` and
`checkStream`: `initMagic` returns the handle `magic_open` gave, classification is
invoked on that handle, and the result is the `strcpy` of whatever classification
returned, the same function of it for every load status. -/
theorem C9_load_status_unchecked {σ : Type} (L : LibMagic σ) (v : Int) (flags : Int)
    (w : World σ) (path : String) (bytes len : Nat) :
    libLoadStatus (withLoadStatus L v) flags w.lib = v ∧
    initMagic (withLoadStatus L v) flags w = initMagic L flags w ∧
    (initMagic L flags w).1 = Except.ok (libHandle L flags w.lib) ∧
    checkFile (withLoadStatus L v) flags path w = checkFile L flags path w ∧
    checkStream (withLoadStatus L v) flags bytes len w = checkStream L flags bytes len w ∧
    MagicCall.magic_file (libHandle L flags w.lib) path ∈
      callsOf w (checkFile L flags path w) ∧
    (checkFile L flags path w).1 = strcpy RET_SIZE w.retFile (libFile L flags path w.lib) ∧
    (∀ seen, readBytes w.heap bytes len = some seen →
      MagicCall.magic_buffer (libHandle L flags w.lib) bytes len seen ∈
        callsOf w (checkStream L flags bytes len w) ∧
      (checkStream L flags bytes len w).1
        = strcpy RET_SIZE w.retStream (libBuffer L flags seen w.lib)) := by
  refine ⟨rfl, rfl, ?_, rfl, rfl, ?_, ?_, ?_⟩
  · rw [initMagic_run]
  · rw [checkFile_run]
    cases strcpy RET_SIZE w.retFile (libFile L flags path w.lib) <;> simp [callsOf]
  · rw [checkFile_run]
    cases strcpy RET_SIZE w.retFile (libFile L flags path w.lib) <;> rfl
  · intro seen hr
    rw [checkStream_run L flags bytes len w seen hr]
    cases strcpy RET_SIZE w.retStream (libBuffer L flags seen w.lib) <;> simp [callsOf]

/-- Witness of C9: the toy library made to report a failed load (status -1), over the
three bytes at address 1. -/
theorem C9_load_status_unchecked_witness :
    readBytes world1.heap 1 3 = some [1, 2, 3] ∧
    checkStream (withLoadStatus demoLib (-1)) 16 1 3 world1 = checkStream demoLib 16 1 3 world1 ∧
    MagicCall.magic_buffer (libHandle demoLib 16 world1.lib) 1 3 [1, 2, 3] ∈
      callsOf world1 (checkStream demoLib 16 1 3 world1) :=
  ⟨by decide,
    (C9_load_status_unchecked demoLib (-1) 16 world1 "/etc/hosts" 1 3).2.2.2.2.1,
    ((C9_load_status_unchecked demoLib (-1) 16 world1 "/etc/hosts" 1 3).2.2.2.2.2.2.2
      [1, 2, 3] (by decide)).1⟩

/-- C10: `castBytes` returns -1 exactly when the byte array is null, and then leaves the
out-pointer and the world alone.  For a non-null array of length `n` it returns `n`,
which is not negative, and sets the out-pointer to a fresh block of `n + 1` bytes whose
first `n` bytes are the bytes of the array in order; each buffer entry point then calls
`magic_buffer` on that block with length exactly `n`, the library reading the bytes of
the array. -/
theorem C10_castBytes {σ : Type} (L : LibMagic σ) (w : World σ) (pointer : Nat)
    (bytes : Option JByteArray) :
    ((∃ p, (castBytes bytes pointer w).1 = Except.ok (-1, p)) ↔ bytes = none) ∧
    (bytes = none → castBytes bytes pointer w = (Except.ok (-1, pointer), w)) ∧
    (∀ a, bytes = some a →
      (castBytes bytes pointer w).1 = Except.ok ((a.data.length : Int), w.brk + 1) ∧
      (0 : Int) ≤ (a.data.length : Int) ∧
      (castBytes bytes pointer w).2.memlog
        = w.memlog ++ [MemEvent.malloc (a.data.length + 1) (w.brk + 1)] ∧
      (∃ blk, heapFind (castBytes bytes pointer w).2.heap (w.brk + 1) = some blk ∧
        blk.length = a.data.length + 1 ∧
        blk.take a.data.length = a.data.map some) ∧
      readBytes (castBytes bytes pointer w).2.heap (w.brk + 1) a.data.length
        = some a.data ∧
      MagicCall.magic_buffer (libHandle L L.MAGIC_NONE w.lib) (w.brk + 1) a.data.length
          a.data ∈ callsOf w (Java_nl_kb_magicfile_MagicFile_checkTextStream L bytes w) ∧
      MagicCall.magic_buffer (libHandle L L.MAGIC_MIME_TYPE w.lib) (w.brk + 1)
          a.data.length a.data ∈
        callsOf w (Java_nl_kb_magicfile_MagicFile_checkMimeStream L bytes w) ∧
      MagicCall.magic_buffer (libHandle L L.MAGIC_MIME_ENCODING w.lib) (w.brk + 1)
          a.data.length a.data ∈
        callsOf w (Java_nl_kb_magicfile_MagicFile_checkEncodingStream L bytes w)) := by
  have hcall : ∀ (flags : Int) (a : JByteArray),
      MagicCall.magic_buffer (libHandle L flags w.lib) (w.brk + 1) a.data.length a.data ∈
        callsOf w (bufferEntry L flags (some a) w) := by
    intro flags a
    rw [callsOf_append w _ _ (bufferEntry_trace L flags a w)]
    simp
  refine ⟨?_, ?_, ?_⟩
  · cases bytes with
    | none => exact ⟨fun _ => rfl, fun _ => ⟨pointer, rfl⟩⟩
    | some a =>
      constructor
      · rintro ⟨p, hp⟩
        rw [castBytes_some_run] at hp
        simp only [Except.ok.injEq, Prod.mk.injEq] at hp
        omega
      · intro h
        cases h
  · intro h
    subst h
    rfl
  · intro a h
    subst h
    rw [castBytes_some_run, checkTextStream_eq, checkMimeStream_eq, checkEncodingStream_eq]
    refine ⟨rfl, by omega, rfl, ⟨a.data.map some ++ [none], by simp [heapFind], by simp, ?_⟩,
      readBytes_fresh _ _ _, hcall _ a, hcall _ a, hcall _ a⟩
    rw [List.take_append_of_le_length (by simp)]
    rw [List.take_of_length_le (by simp)]

/-- Witness of C10: the three-byte array in the fresh world. -/
theorem C10_castBytes_witness :
    (castBytes (some threeBytes) 0 world0).1 = Except.ok ((3 : Int), 1) ∧
    readBytes (castBytes (some threeBytes) 0 world0).2.heap 1 3 = some [1, 2, 3] ∧
    castBytes (none : Option JByteArray) 0 world0 = (Except.ok (-1, 0), world0) :=
  ⟨((C10_castBytes demoLib world0 0 (some threeBytes)).2.2 threeBytes rfl).1,
    ((C10_castBytes demoLib world0 0 (some threeBytes)).2.2 threeBytes rfl).2.2.2.2.1,
    (C10_castBytes demoLib world0 0 none).2.1 rfl⟩

end MagicFile
